import Mathlib

/-!
# Verification of the rosetta interface-description compiler (core pipeline)

Shallow embedding of the repository's Python sources:

* `Idl` models `src/idl/rosetta_idl_parser.py`: the data model
  (`InterfaceDefinition`, `Class`, `Method`, ...), the validator
  `IDLParser.validate`, the structured-document constructors
  (`Class.from_dict`), and the emission logic of
  `_write_class_registration` / `_generate_method_pointer`
  (overload grouping, emission-name suffixes, pointer casts,
  duplicate-signature skipping).

* `Ild` models `src/ild/ild_parser.py` (the custom block-structured DSL
  parser, embedded with an explicit fuel parameter so that a loop that
  fails to advance its line cursor is observable as fuel exhaustion on
  every fuel) and `src/ild/js_generator.py` (`generate_binding_cpp`).

Python string primitives (`str.replace`, `str.strip`, `str.split`,
`str.rsplit`, slicing) are modelled on `List Char` by the `Py` helpers
below.  Python truthiness of optional strings (`None` and `""` are falsy)
is modelled by `pyOr` / `truthy`.
-/

namespace Py

/-- Python whitespace for `str.strip()` / `\s` (ASCII range). -/
def isSpace (c : Char) : Bool :=
  c = ' ' || c = '\t' || c = '\n' || c = '\r' || c = '\x0b' || c = '\x0c'

/-- `str.strip()` : drop whitespace from both ends. -/
def stripChars (l : List Char) : List Char :=
  ((l.dropWhile isSpace).reverse.dropWhile isSpace).reverse

/-- `str.strip()` on `String`. -/
def strip (s : String) : String := ⟨stripChars s.data⟩

/-- `str.strip('\x22')` : drop double quotes from both ends. -/
def stripQuotes (s : String) : String :=
  ⟨((s.data.dropWhile (· = '"')).reverse.dropWhile (· = '"')).reverse⟩

/-- `str.replace(pat, repl)` (non-overlapping, left to right), with
explicit structural fuel; one input character is consumed per step, so
`fuel = s.length` is exact. -/
def replaceFuel (pat repl : List Char) : Nat → List Char → List Char
  | 0, s => s
  | _ + 1, [] => []
  | fuel + 1, c :: cs =>
    if pat ≠ [] && pat.isPrefixOf (c :: cs) then
      repl ++ replaceFuel pat repl fuel ((c :: cs).drop pat.length)
    else
      c :: replaceFuel pat repl fuel cs

/-- `str.replace(pat, repl)`. -/
def replace (s pat repl : String) : String :=
  ⟨replaceFuel pat.data repl.data s.data.length s.data⟩

/-- `pat in s` for a substring pattern, with structural fuel. -/
def containsSeqFuel (pat : List Char) : Nat → List Char → Bool
  | 0, s => pat.isPrefixOf s
  | _ + 1, [] => pat.isPrefixOf []
  | fuel + 1, c :: cs => pat.isPrefixOf (c :: cs) || containsSeqFuel pat fuel cs

/-- `pat in s` for strings. -/
def containsSeq (s pat : String) : Bool :=
  containsSeqFuel pat.data s.data.length s.data

/-- `str.split(pat)` for a non-empty pattern, with structural fuel. -/
def splitSeqFuel (pat : List Char) : Nat → List Char → List (List Char)
  | 0, s => [s]
  | _ + 1, [] => [[]]
  | fuel + 1, c :: cs =>
    if pat ≠ [] && pat.isPrefixOf (c :: cs) then
      [] :: splitSeqFuel pat fuel ((c :: cs).drop pat.length)
    else
      match splitSeqFuel pat fuel cs with
      | [] => [[c]]
      | h :: t => (c :: h) :: t

/-- `str.split(pat)` for strings. -/
def splitSeq (s pat : String) : List (List Char) :=
  splitSeqFuel pat.data s.data.length s.data

/-- `str.startswith(pre)`. -/
def startsWith (pre s : String) : Bool := pre.data.isPrefixOf s.data

/-- `str.rsplit(' ', 1)` : split at the last space, `none` if no space. -/
def rsplitSpace (l : List Char) : Option (List Char × List Char) :=
  if ' ' ∈ l then
    let rev := l.reverse
    some (((rev.drop ((rev.takeWhile (fun c => c ≠ ' ')).length + 1)).reverse),
          (rev.takeWhile (fun c => c ≠ ' ')).reverse)
  else none

/-- Python `a or b` for an optional string: `None` and `""` are falsy. -/
def pyOr (o : Option String) (d : String) : String :=
  match o with
  | some s => if s = "" then d else s
  | none => d

/-- Python truthiness of an optional string. -/
def truthy (o : Option String) : Bool :=
  match o with
  | some s => s ≠ ""
  | none => false

end Py

/-! ## The YAML/structured-document pipeline: `src/idl/rosetta_idl_parser.py` -/

namespace Idl

/-- `class AccessMode(Enum)` (`"rw"`, `"ro"`, `"wo"`). -/
inductive AccessMode where
  | READ_WRITE | READ_ONLY | WRITE_ONLY
deriving DecidableEq, Repr

/-- `AccessMode(s)` : enum lookup by value, `ValueError` as `none`. -/
def AccessMode.ofString (s : String) : Option AccessMode :=
  if s = "rw" then some .READ_WRITE
  else if s = "ro" then some .READ_ONLY
  else if s = "wo" then some .WRITE_ONLY
  else none

/-- `class InheritanceType(Enum)` (`"normal"`, `"virtual"`). -/
inductive InheritanceType where
  | NORMAL | VIRTUAL
deriving DecidableEq, Repr

def InheritanceType.ofString (s : String) : Option InheritanceType :=
  if s = "normal" then some .NORMAL
  else if s = "virtual" then some .VIRTUAL
  else none

/-- `class AccessSpecifier(Enum)`. -/
inductive AccessSpecifier where
  | PUBLIC | PROTECTED | PRIVATE
deriving DecidableEq, Repr

def AccessSpecifier.ofString (s : String) : Option AccessSpecifier :=
  if s = "public" then some .PUBLIC
  else if s = "protected" then some .PROTECTED
  else if s = "private" then some .PRIVATE
  else none

/-- `@dataclass Parameter`. -/
structure Parameter where
  name : String
  type : String
  default : Option String := none
  description : Option String := none
deriving DecidableEq, Repr

/-- `@dataclass Field`. -/
structure Field where
  name : String
  type : String
  access : AccessMode := .READ_WRITE
  description : Option String := none
  default : Option String := none
  cpp_name : Option String := none
  getter : Option String := none
  setter : Option String := none
deriving DecidableEq, Repr

/-- `@dataclass Method`. -/
structure Method where
  name : String
  returns : String := "void"
  parameters : List Parameter := []
  const : Bool := false
  virtual : Bool := false
  pure_virtual : Bool := false
  override : Bool := false
  static : Bool := false
  description : Option String := none
  cpp_name : Option String := none
deriving DecidableEq, Repr

/-- `@dataclass Constructor`. -/
structure Constructor where
  parameters : List Parameter := []
  description : Option String := none
deriving DecidableEq, Repr

/-- `@dataclass BaseClass`. -/
structure BaseClass where
  name : String
  inheritance_type : InheritanceType := .NORMAL
  access : AccessSpecifier := .PUBLIC
deriving DecidableEq, Repr

/-- `@dataclass Class`. -/
structure Class where
  name : String
  cpp_class : Option String := none
  description : Option String := none
  fields : List Field := []
  methods : List Method := []
  constructors : List Constructor := []
  base_classes : List BaseClass := []
  is_abstract : Bool := false
  is_polymorphic : Bool := false
  auto_detect_properties : Bool := false
deriving DecidableEq, Repr

/-- `Class.cpp_name` property: `self.cpp_class or self.name`. -/
def Class.cppNameOf (c : Class) : String := Py.pyOr c.cpp_class c.name

/-- `@dataclass Function`. -/
structure Function where
  name : String
  cpp_name : Option String := none
  returns : String := "void"
  parameters : List Parameter := []
  description : Option String := none
deriving DecidableEq, Repr

/-- `Function.cpp_function_name` property. -/
def Function.cppFunctionName (f : Function) : String := Py.pyOr f.cpp_name f.name

/-- `@dataclass TypeConverter`. -/
structure TypeConverter where
  type : String
  custom_converter : Option String := none
deriving DecidableEq, Repr

/-- `@dataclass Include`. -/
structure Include where
  path : String
  system : Bool := false
deriving DecidableEq, Repr

/-- `@dataclass Module`. -/
structure Module where
  name : String
  version : String := "1.0.0"
  namespace_ : Option String := none
  description : Option String := none
deriving DecidableEq, Repr

/-- `@dataclass Utilities`. -/
structure Utilities where
  version_info : Bool := true
  list_classes : Bool := true
  type_inspection : Bool := true
  get_class_info : Bool := true
deriving DecidableEq, Repr

/-- `@dataclass InterfaceDefinition`.  The `library` configuration field
is not read by `validate` or by any claim and is left out. -/
structure InterfaceDefinition where
  module : Module
  includes : List Include := []
  converters : List TypeConverter := []
  classes : List Class := []
  functions : List Function := []
  utilities : Option Utilities := none
deriving DecidableEq, Repr

/-- `InterfaceDefinition.get_class`: linear scan matching public or C++
name. -/
def getClass (idl : InterfaceDefinition) (n : String) : Option Class :=
  idl.classes.find? (fun c => c.name = n || c.cppNameOf = n)

/-- `InterfaceDefinition.get_function`. -/
def getFunction (idl : InterfaceDefinition) (n : String) : Option Function :=
  idl.functions.find? (fun f => f.name = n || f.cppFunctionName = n)

/-- Result of `IDLParser.validate`: the final `self.errors`,
`self.warnings` and the returned boolean. -/
structure ValidationResult where
  errors : List String
  warnings : List String
  ok : Bool
deriving DecidableEq, Repr

/-- The warning text of the unresolved-base check (the two f-string
fragments of the source concatenate with a single space). -/
def baseWarning (c : Class) (b : BaseClass) : String :=
  "Class \x27" ++ c.name ++ "\x27 inherits from \x27" ++ b.name ++
    "\x27 which is not defined in this IDL"

/-- `IDLParser.validate`, started from the current diagnostic state
`(errs0, warns0)` of the parser object.  `len(set(xs))` is
`xs.dedup.length`.  The duplicate-class and duplicate-function checks
`return False` immediately; the unresolved-base loop only appends
warnings; the final statement is `return len(self.errors) == 0`. -/
def validateFrom (errs0 warns0 : List String) (idl : InterfaceDefinition) :
    ValidationResult :=
  let classNames := idl.classes.map Class.name
  if classNames.dedup.length ≠ classNames.length then
    ⟨errs0 ++ ["Duplicate class names found"], warns0, false⟩
  else
    let funcNames := idl.functions.map Function.name
    if funcNames.dedup.length ≠ funcNames.length then
      ⟨errs0 ++ ["Duplicate function names found"], warns0, false⟩
    else
      let warns := idl.classes.foldl (fun acc c =>
        acc ++ (c.base_classes.filter
            (fun b => (getClass idl b.name).isNone)).map (baseWarning c)) warns0
      ⟨errs0, warns, errs0.length == 0⟩

/-- `IDLParser.validate` on a parser with empty diagnostics (the state
in the normal `parse_dict` → `validate` flow, since `parse_dict`
returns `None` whenever `self.errors` is non-empty). -/
def validate (idl : InterfaceDefinition) : ValidationResult :=
  validateFrom [] [] idl

end Idl

namespace Idl

/-! ### Emission: `_write_class_registration` and `_generate_method_pointer` -/

/-- The per-parameter type reduction of the overload-suffix computation
(`_write_class_registration`, the `for param in method.parameters` body):
`ptype.replace("const ", "").replace("&", "").replace("*", "").strip()`,
then `.replace("std::", "")`, then the last `"::"`-separated part, then
the text before the first `"<"`, then `.lower()` (ASCII case fold; the
type strings of interest are ASCII). -/
def simplifyParamType (t : String) : String :=
  let s := Py.replace (Py.replace (Py.replace t "const " "") "&" "") "*" ""
  let s := Py.strip s
  let s := Py.replace s "std::" ""
  let s := if Py.containsSeq s "::" then ⟨(Py.splitSeq s "::").getLastD []⟩ else s
  let s := if Py.containsSeq s "<" then ⟨s.data.takeWhile (fun c => c ≠ '<')⟩ else s
  ⟨s.data.map Char.toLower⟩

/-- Size of `method_groups[nm]`: methods of the class sharing the
declared name `nm` (duplicates counted). -/
def overloadCount (ms : List Method) (nm : String) : Nat :=
  (ms.filter (fun m => m.name = nm)).length

/-- The `suffix` variable of `_write_class_registration`: `"_void"` for
zero parameters, otherwise `"_" + "_".join(simplified types)`. -/
def overloadSfx (m : Method) : String :=
  if m.parameters.length = 0 then "_void"
  else "_" ++ "_".intercalate (m.parameters.map (fun p => simplifyParamType p.type))

/-- `py_method_name`: the emission name; the suffix is appended exactly
when `len(method_groups[method.name]) > 1`. -/
def pyMethodName (ms : List Method) (m : Method) : String :=
  if 1 < overloadCount ms m.name then m.name ++ overloadSfx m else m.name

/-- `_generate_method_pointer(class_name, method, is_overloaded,
is_static)`. -/
def genMethodPtr (className : String) (m : Method)
    (isOverloaded : Bool) (isStatic : Bool) : String :=
  let cppMethodName := Py.pyOr m.cpp_name m.name
  if ¬ isOverloaded then "&" ++ className ++ "::" ++ cppMethodName
  else
    let returnType := m.returns
    let paramTypes :=
      if m.parameters ≠ [] then ", ".intercalate (m.parameters.map Parameter.type)
      else ""
    let signature :=
      if isStatic then
        if paramTypes ≠ "" then returnType ++ " (*)(" ++ paramTypes ++ ")"
        else returnType ++ " (*)()"
      else
        let s :=
          if paramTypes ≠ "" then
            returnType ++ " (" ++ className ++ "::*)(" ++ paramTypes ++ ")"
          else returnType ++ " (" ++ className ++ "::*)()"
        if m.const then s ++ " const" else s
  "static_cast<" ++ signature ++ ">(&" ++ className ++ "::" ++ cppMethodName ++ ")"

/-- `method_key`: `f"{method.name}::{param_sig}::{method.const}"` with
`param_sig = ",".join(parameter types)` and Python `repr` of the
boolean. -/
def methodKey (m : Method) : String :=
  m.name ++ "::" ++ ",".intercalate (m.parameters.map Parameter.type) ++ "::" ++
    (if m.const then "True" else "False")

/-- The registration line written for one (not-skipped) method: the
five-way branch `pure_virtual` / `static` / `override` / `virtual` /
plain of `_write_class_registration`, each `f.write` including its
8-space indent and trailing newline.  `ms` is the full method list of
the class (groups are computed on it before deduplication). -/
def methodRegLine (className : String) (ms : List Method) (m : Method) : String :=
  let py := pyMethodName ms m
  let isOver := decide (1 < overloadCount ms m.name)
  if m.pure_virtual then
    "        .pure_virtual_method<" ++
      ", ".intercalate (m.returns :: m.parameters.map Parameter.type) ++
      ">(\"" ++ py ++ "\")\n"
  else if m.static then
    "        .static_method(\"" ++ py ++ "\", " ++
      genMethodPtr className m isOver true ++ ")\n"
  else if m.override then
    "        .override_method(\"" ++ py ++ "\", " ++
      genMethodPtr className m isOver false ++ ")\n"
  else if m.virtual then
    "        .virtual_method(\"" ++ py ++ "\", " ++
      genMethodPtr className m isOver false ++ ")\n"
  else
    "        .method(\"" ++ py ++ "\", " ++
      genMethodPtr className m isOver false ++ ")\n"

/-- The method loop of `_write_class_registration`: `registered_methods`
is a set of keys (membership is all that is used, so a list models it);
a method whose key was seen is skipped with no output, otherwise its key
is added and its registration line is written. -/
def methodsLoop (className : String) (ms : List Method) :
    List Method → List String → List String
  | [], _ => []
  | m :: rest, seen =>
    if methodKey m ∈ seen then methodsLoop className ms rest seen
    else methodRegLine className ms m :: methodsLoop className ms rest (methodKey m :: seen)

/-- All method registration lines of one class. -/
def methodsSection (className : String) (ms : List Method) : List String :=
  methodsLoop className ms ms []

/-- The method list that survives the `registered_methods` guard (first
occurrence of each `method_key`, in declaration order). -/
def dedupMethodsAux : List Method → List String → List Method
  | [], _ => []
  | m :: rest, seen =>
    if methodKey m ∈ seen then dedupMethodsAux rest seen
    else m :: dedupMethodsAux rest (methodKey m :: seen)

def dedupMethods (ms : List Method) : List Method := dedupMethodsAux ms []

/-- One `.constructor<...>()` line. -/
def ctorLine (ct : Constructor) : String :=
  if ct.parameters ≠ [] then
    "        .constructor<" ++ ", ".intercalate (ct.parameters.map Parameter.type) ++ ">()\n"
  else "        .constructor<>()\n"

/-- One base-class line. -/
def baseLine (b : BaseClass) : String :=
  if b.inheritance_type = .VIRTUAL then
    "        .virtually_inherits_from<" ++ b.name ++ ">()\n"
  else
    "        .inherits_from<" ++ b.name ++ ">()\n"

/-- One field line: the getter/setter/access four-way branch (Python
truthiness on the optional getter/setter names). -/
def fieldLine (cppClassName : String) (f : Field) : String :=
  let cppFieldName := Py.pyOr f.cpp_name f.name
  if Py.truthy f.getter && Py.truthy f.setter then
    "        .property(\"" ++ f.name ++ "\", &" ++ cppClassName ++ "::" ++
      Py.pyOr f.getter "" ++ ", &" ++ cppClassName ++ "::" ++ Py.pyOr f.setter "" ++ ")\n"
  else if Py.truthy f.getter && f.access = .READ_ONLY then
    "        .readonly_property(\"" ++ f.name ++ "\", &" ++ cppClassName ++ "::" ++
      Py.pyOr f.getter "" ++ ")\n"
  else if Py.truthy f.setter && f.access = .WRITE_ONLY then
    "        .writeonly_property(\"" ++ f.name ++ "\", &" ++ cppClassName ++ "::" ++
      Py.pyOr f.setter "" ++ ")\n"
  else
    "        .field(\"" ++ f.name ++ "\", &" ++ cppClassName ++ "::" ++ cppFieldName ++ ")\n"

/-- `_write_class_registration(f, cls, idl)`: the full text written for
one class. -/
def writeClassRegistration (cls : Class) : String :=
  "    // Register " ++ cls.name ++ "\n" ++
  "    ROSETTA_REGISTER_CLASS(" ++ cls.cppNameOf ++ ")\n" ++
  String.join (cls.constructors.map ctorLine) ++
  String.join (cls.base_classes.map baseLine) ++
  String.join (cls.fields.map (fieldLine cls.cppNameOf)) ++
  String.join (methodsSection cls.cppNameOf cls.methods) ++
  (if cls.auto_detect_properties then "        .auto_detect_properties()\n" else "") ++
  "        ;\n\n"

end Idl

namespace Idl

/-! ### Structured-document constructors (`from_dict`)

The YAML loader hands `parse_dict` a map-of-maps; each `from_dict`
classmethod reads a fixed set of keys with `data['k']` / `data.get`.
Each dict is modelled as a structure whose optional keys are `Option`s
(`none` = key absent); enum `ValueError`s surface as `Except.error`. -/

/-- The dict consumed by `Parameter.from_dict`. -/
structure ParameterData where
  name : String
  type : String
  default : Option String := none
  description : Option String := none
deriving DecidableEq, Repr

/-- `Parameter.from_dict`. -/
def Parameter.fromDict (d : ParameterData) : Parameter :=
  ⟨d.name, d.type, d.default, d.description⟩

/-- The dict consumed by `Field.from_dict`. -/
structure FieldData where
  name : String
  type : String
  access : Option String := none
  description : Option String := none
  default : Option String := none
  cpp_name : Option String := none
  getter : Option String := none
  setter : Option String := none
deriving DecidableEq, Repr

/-- `Field.from_dict`: `AccessMode(data.get('access', 'rw'))` raises on
an unknown access string. -/
def Field.fromDict (d : FieldData) : Except String Field :=
  match AccessMode.ofString (d.access.getD "rw") with
  | none => .error ("\x27" ++ d.access.getD "rw" ++ "\x27 is not a valid AccessMode")
  | some a =>
      .ok ⟨d.name, d.type, a, d.description, d.default, d.cpp_name, d.getter, d.setter⟩

/-- The dict consumed by `Method.from_dict`. -/
structure MethodData where
  name : String
  returns : Option String := none
  parameters : Option (List ParameterData) := none
  const : Option Bool := none
  virtual : Option Bool := none
  pure_virtual : Option Bool := none
  override : Option Bool := none
  static : Option Bool := none
  description : Option String := none
  cpp_name : Option String := none
deriving DecidableEq, Repr

/-- `Method.from_dict`. -/
def Method.fromDict (d : MethodData) : Method where
  name := d.name
  returns := d.returns.getD "void"
  parameters := (d.parameters.getD []).map Parameter.fromDict
  const := d.const.getD false
  virtual := d.virtual.getD false
  pure_virtual := d.pure_virtual.getD false
  override := d.override.getD false
  static := d.static.getD false
  description := d.description
  cpp_name := d.cpp_name

/-- The dict consumed by `Constructor.from_dict`. -/
structure ConstructorData where
  parameters : Option (List ParameterData) := none
  description : Option String := none
deriving DecidableEq, Repr

/-- `Constructor.from_dict`. -/
def Constructor.fromDict (d : ConstructorData) : Constructor :=
  ⟨(d.parameters.getD []).map Parameter.fromDict, d.description⟩

/-- The dict (or bare string) consumed by `BaseClass.from_dict`. -/
inductive BaseClassData where
  | str (name : String)
  | dict (name : String) (inheritance : Option String) (access : Option String)
deriving DecidableEq, Repr

/-- `BaseClass.from_dict`: a bare string means default inheritance and
access; in the dict form the enum constructors raise on bad values. -/
def BaseClass.fromDict : BaseClassData → Except String BaseClass
  | .str n => .ok ⟨n, .NORMAL, .PUBLIC⟩
  | .dict n inh acc =>
    match InheritanceType.ofString (inh.getD "normal") with
    | none => .error ("\x27" ++ inh.getD "normal" ++ "\x27 is not a valid InheritanceType")
    | some i =>
      match AccessSpecifier.ofString (acc.getD "public") with
      | none => .error ("\x27" ++ acc.getD "public" ++ "\x27 is not a valid AccessSpecifier")
      | some a => .ok ⟨n, i, a⟩

/-- The dict consumed by `Class.from_dict`. -/
structure ClassData where
  name : String
  cpp_class : Option String := none
  description : Option String := none
  fields : Option (List FieldData) := none
  methods : Option (List MethodData) := none
  constructors : Option (List ConstructorData) := none
  base_classes : Option (List BaseClassData) := none
  is_abstract : Option Bool := none
  is_polymorphic : Option Bool := none
  auto_detect_properties : Option Bool := none
deriving DecidableEq, Repr

/-- Sequence a list of `Except` computations (a Python list
comprehension whose element constructor may raise). -/
def exceptMap {α β : Type} (f : α → Except String β) : List α → Except String (List β)
  | [] => .ok []
  | a :: rest => do
    let b ← f a
    let bs ← exceptMap f rest
    pure (b :: bs)

/-- `Class.from_dict`: note that a missing or empty `constructors`
entry yields an empty constructor list — no default constructor is
synthesized on this path.  (Of the four member comprehensions only the
field and base-class ones can raise.) -/
def Class.fromDict (d : ClassData) : Except String Class :=
  match exceptMap Field.fromDict (d.fields.getD []) with
  | .error e => .error e
  | .ok fields =>
    match exceptMap BaseClass.fromDict (d.base_classes.getD []) with
    | .error e => .error e
    | .ok base_classes =>
      .ok
        { name := d.name
          cpp_class := d.cpp_class
          description := d.description
          fields := fields
          methods := (d.methods.getD []).map Method.fromDict
          constructors := (d.constructors.getD []).map Constructor.fromDict
          base_classes := base_classes
          is_abstract := d.is_abstract.getD false
          is_polymorphic := d.is_polymorphic.getD false
          auto_detect_properties := d.auto_detect_properties.getD false }

end Idl

/-! ## The custom-DSL pipeline: `src/ild/ild_parser.py` -/

namespace Ild

/-- `@dataclass Parameter`. -/
structure Parameter where
  name : String
  type : String
deriving DecidableEq, Repr

/-- `@dataclass Constructor`. -/
structure Constructor where
  parameters : List Parameter := []
deriving DecidableEq, Repr

/-- `@dataclass Field` (the source's `alias` field is a Lean keyword,
kept as `aliasName`). -/
structure Field where
  name : String
  type : String
  aliasName : Option String := none
deriving DecidableEq, Repr

/-- `@dataclass Method`. -/
structure Method where
  name : String
  return_type : String
  parameters : List Parameter := []
  aliasName : Option String := none
  is_const : Bool := true
deriving DecidableEq, Repr

/-- `@dataclass Function`. -/
structure Function where
  name : String
  return_type : String
  parameters : List Parameter := []
  aliasName : Option String := none
deriving DecidableEq, Repr

/-- `@dataclass ClassDef`. -/
structure ClassDef where
  name : String
  constructors : List Constructor := []
  fields : List Field := []
  methods : List Method := []
  base_class : Option String := none
deriving DecidableEq, Repr

/-- `@dataclass ModuleConfig`; `targets: Dict[str, Dict[str, str]]` is
an insertion-ordered association list (Python dict semantics). -/
structure ModuleConfig where
  name : String
  version : String := "1.0.0"
  description : String := ""
  targets : List (String × List (String × String)) := []
deriving DecidableEq, Repr

/-- `@dataclass ILDDocument`; `converters: Set[str]` is a `Finset`. -/
structure ILDDocument where
  module : ModuleConfig
  includes : List String := []
  converters : Finset String := ∅
  classes : List ClassDef := []
  functions : List Function := []
  utilities : List String := []
deriving DecidableEq

/-- Python dict assignment `d[k] = v`: overwrite in place if the key
exists, otherwise append. -/
def dictSet {α : Type} (d : List (String × α)) (k : String) (v : α) :
    List (String × α) :=
  if d.any (fun p => p.1 = k) then d.map (fun p => if p.1 = k then (k, v) else p)
  else d ++ [(k, v)]

/-! ### The regular expressions of the line parsers

Each `re.match` pattern of the source is hand-compiled to a
deterministic scanner.  The patterns (`module\s+(\w+)\s*{` etc.) only
combine literals, `\s` runs and the disjoint classes `\w+`, `[^\s]+`,
`[^)]*`, `[^\x22]+`, so greedy maximal-munch scanning is equivalent to
the backtracking semantics (each repeated class cannot consume a
character the following literal needs).  `\w` is modelled on ASCII. -/

/-- `\w`. -/
def isWordChar (c : Char) : Bool := c.isAlphanum || c = '_'

/-- Consume an exact literal. -/
def eatLit (lit : List Char) (l : List Char) : Option (List Char) :=
  if lit.isPrefixOf l then some (l.drop lit.length) else none

/-- `\s+` (greedy). -/
def ws1 (l : List Char) : Option (List Char) :=
  match l with
  | c :: cs => if Py.isSpace c then some (cs.dropWhile Py.isSpace) else none
  | [] => none

/-- `\s*` (greedy). -/
def wsAny (l : List Char) : List Char := l.dropWhile Py.isSpace

/-- `(\w+)` (greedy, at least one). -/
def takeWord (l : List Char) : Option (String × List Char) :=
  let w := l.takeWhile isWordChar
  if w = [] then none else some (⟨w⟩, l.drop w.length)

/-- A single literal character. -/
def eatCh (c : Char) (l : List Char) : Option (List Char) :=
  match l with
  | x :: xs => if x = c then some xs else none
  | [] => none

/-- `module\s+(\w+)\s*{`. -/
def matchModule (l : List Char) : Option String := do
  let l ← eatLit "module".data l
  let l ← ws1 l
  let (nm, l) ← takeWord l
  let _ ← eatCh '{' (wsAny l)
  pure nm

/-- `include\s+"([^"]+)"`. -/
def matchInclude (l : List Char) : Option String := do
  let l ← eatLit "include".data l
  let l ← ws1 l
  let l ← eatCh '"' l
  let p := l.takeWhile (fun c => c ≠ '"')
  if p = [] then none
  else do
    let _ ← eatCh '"' (l.drop p.length)
    pure ⟨p⟩

/-- `class\s+(\w+)(?:\s*:\s*(\w+))?\s*{`.  If the optional base group
matches, the character after `(\w+)` skipping spaces was `:`, so the
empty-group alternative (which next requires `{`) cannot succeed
either; committing to a successful group is therefore faithful to the
backtracking semantics. -/
def matchClass (l : List Char) : Option (String × Option String) := do
  let l ← eatLit "class".data l
  let l ← ws1 l
  let (nm, l) ← takeWord l
  let base? : Option (String × List Char) := do
    let l2 ← eatCh ':' (wsAny l)
    let (b, l2) ← takeWord (wsAny l2)
    pure (b, l2)
  match base? with
  | some (b, l2) => do
    let _ ← eatCh '{' (wsAny l2)
    pure (nm, some b)
  | none => do
    let _ ← eatCh '{' (wsAny l)
    pure (nm, none)

/-- The trailing optional group `(?:\s+as\s+(\w+))?` of the field,
method and function patterns; failure anywhere in the group matches the
group as empty. -/
def matchAsAlias (l : List Char) : Option String := do
  let l ← ws1 l
  let l ← eatLit "as".data l
  let l ← ws1 l
  let (a, _) ← takeWord l
  pure a

/-- `field\s+(\w+)\s*:\s*([^\s]+)(?:\s+as\s+(\w+))?`. -/
def matchField (l : List Char) : Option (String × String × Option String) := do
  let l ← eatLit "field".data l
  let l ← ws1 l
  let (nm, l) ← takeWord l
  let l ← eatCh ':' (wsAny l)
  let l := wsAny l
  let ty := l.takeWhile (fun c => !(Py.isSpace c))
  if ty = [] then none
  else pure (nm, ⟨ty⟩, matchAsAlias (l.drop ty.length))

/-- `<kw>\s+(\w+)\s*\(([^)]*)\)\s*:\s*([^\s]+)(?:\s+as\s+(\w+))?`, the
shared shape of the `method` and `function` patterns. -/
def matchSig (kw : String) (l : List Char) :
    Option (String × String × String × Option String) := do
  let l ← eatLit kw.data l
  let l ← ws1 l
  let (nm, l) ← takeWord l
  let l ← eatCh '(' (wsAny l)
  let ps := l.takeWhile (fun c => c ≠ ')')
  let l ← eatCh ')' (l.drop ps.length)
  let l ← eatCh ':' (wsAny l)
  let l := wsAny l
  let ty := l.takeWhile (fun c => !(Py.isSpace c))
  if ty = [] then none
  else pure (nm, ⟨ps⟩, ⟨ty⟩, matchAsAlias (l.drop ty.length))

/-- `_parse_parameter_list`: split on `,`, strip each piece, skip empty
pieces, `rsplit(' ', 1)` into type and name, synthesizing
`arg<index>` when the piece has no space. -/
def parseParamList (s : String) : List Parameter :=
  if Py.strip s = "" then []
  else
    (s.data.splitOn ',').foldl (fun acc part =>
      let p := Py.stripChars part
      if p = [] then acc
      else
        match Py.rsplitSpace p with
        | some (ty, nm) => acc ++ [⟨⟨nm⟩, ⟨ty⟩⟩]
        | none => acc ++ [⟨"arg" ++ toString acc.length, ⟨p⟩⟩]) []

/-- `_parse_value`: `line.split(':', 1)[1].strip().strip('"')` (callers
guarantee a `:` is present). -/
def parseValue (line : String) : String :=
  Py.stripQuotes (Py.strip ⟨(line.data.dropWhile (fun c => c ≠ ':')).drop 1⟩)

/-- `self.lines[self.current_line]` (callers guard the bound). -/
def lineAt (lines : List String) (cur : Nat) : String := lines.getD cur ""

/-- Outcome of a parsing step: value plus new cursor, a raised
`ValueError`, or fuel exhaustion.  Every `while` loop of the source is
embedded with an explicit fuel parameter; a loop that never advances
the cursor yields `diverge` for every fuel. -/
inductive PResult (α : Type) where
  | ok (a : α) (cur : Nat)
  | err (msg : String)
  | diverge
deriving DecidableEq, Repr

/-- The `while` loop of `_parse_target_config` (the leading
`self.current_line += 1` of that method is performed by the caller
passing `cur + 1`). -/
def targetConfigLoop :
    Nat → List String → Nat → List (String × String) → PResult (List (String × String))
  | 0, _, _, _ => .diverge
  | fuel + 1, lines, cur, cfg =>
    if cur < lines.length then
      let line := lineAt lines cur
      if line = "\x7d" then .ok cfg (cur + 1)
      else if ':' ∈ line.data then
        let key := Py.strip ⟨line.data.takeWhile (fun c => c ≠ ':')⟩
        let val := Py.stripQuotes (Py.strip ⟨(line.data.dropWhile (fun c => c ≠ ':')).drop 1⟩)
        targetConfigLoop fuel lines (cur + 1) (dictSet cfg key val)
      else targetConfigLoop fuel lines (cur + 1) cfg
    else .ok cfg cur

/-- The `while` loop of `_parse_targets`. -/
def targetsLoop :
    Nat → List String → Nat → List (String × List (String × String)) →
      PResult (List (String × List (String × String)))
  | 0, _, _, _ => .diverge
  | fuel + 1, lines, cur, tgts =>
    if cur < lines.length then
      let line := lineAt lines cur
      if line = "\x7d" then .ok tgts (cur + 1)
      else if line.data.getLast? = some '{' then
        let tname := Py.strip ⟨line.data.dropLast⟩
        match targetConfigLoop fuel lines (cur + 1) [] with
        | .ok cfg cur2 => targetsLoop fuel lines cur2 (dictSet tgts tname cfg)
        | .err e => .err e
        | .diverge => .diverge
      else targetsLoop fuel lines (cur + 1) tgts
    else .ok tgts cur

/-- The `while` loop of `_parse_module`.  The `version:` and
`description:` branches call `_parse_value` and do **not** advance
`self.current_line`; the embedding reproduces this verbatim. -/
def moduleLoop : Nat → List String → Nat → ModuleConfig → PResult ModuleConfig
  | 0, _, _, _ => .diverge
  | fuel + 1, lines, cur, m =>
    if cur < lines.length then
      let line := lineAt lines cur
      if line = "\x7d" then .ok m (cur + 1)
      else if Py.startsWith "version:" line then
        moduleLoop fuel lines cur { m with version := parseValue line }
      else if Py.startsWith "description:" line then
        moduleLoop fuel lines cur { m with description := parseValue line }
      else if Py.startsWith "targets \x7b" line then
        match targetsLoop fuel lines (cur + 1) [] with
        | .ok tg cur2 => moduleLoop fuel lines cur2 { m with targets := tg }
        | .err e => .err e
        | .diverge => .diverge
      else moduleLoop fuel lines (cur + 1) m
    else .ok m cur

/-- `_parse_module`. -/
def parseModule (fuel : Nat) (lines : List String) (cur : Nat) : PResult ModuleConfig :=
  match matchModule (lineAt lines cur).data with
  | none => .err ("Invalid module syntax at line " ++ toString cur)
  | some nm => moduleLoop fuel lines (cur + 1) { name := nm }

/-- `_parse_include`. -/
def parseInclude (lines : List String) (cur : Nat) : Except String (String × Nat) :=
  match matchInclude (lineAt lines cur).data with
  | some p => .ok (p, cur + 1)
  | none => .error ("Invalid include syntax at line " ++ toString cur)

/-- The `while` loop of `_parse_converters` (`converters.add(line)` on
every non-`}` line). -/
def convLoop : Nat → List String → Nat → Finset String → PResult (Finset String)
  | 0, _, _, _ => .diverge
  | fuel + 1, lines, cur, convs =>
    if cur < lines.length then
      let line := lineAt lines cur
      if line = "\x7d" then .ok convs (cur + 1)
      else convLoop fuel lines (cur + 1) (insert line convs)
    else .ok convs cur

/-- The `while` loop of `_parse_utilities`. -/
def utilLoop : Nat → List String → Nat → List String → PResult (List String)
  | 0, _, _, _ => .diverge
  | fuel + 1, lines, cur, us =>
    if cur < lines.length then
      let line := lineAt lines cur
      if line = "\x7d" then .ok us (cur + 1)
      else utilLoop fuel lines (cur + 1) (us ++ [line])
    else .ok us cur

/-- The member `while` loop of `_parse_class`; `constructor`, `field `
and `method ` lines are parsed by `_parse_constructor`, `_parse_field`
and `_parse_method`, each of which advances the cursor by one. -/
def classLoop : Nat → List String → Nat → ClassDef → PResult ClassDef
  | 0, _, _, _ => .diverge
  | fuel + 1, lines, cur, cd =>
    if cur < lines.length then
      let line := lineAt lines cur
      if line = "\x7d" then .ok cd (cur + 1)
      else if Py.startsWith "constructor" line then
        classLoop fuel lines (cur + 1)
          { cd with constructors := cd.constructors ++ [⟨parseParamList ⟨line.data.drop 11⟩⟩] }
      else if Py.startsWith "field " line then
        match matchField line.data with
        | some (nm, ty, al) =>
          classLoop fuel lines (cur + 1) { cd with fields := cd.fields ++ [⟨nm, ty, al⟩] }
        | none => .err ("Invalid field syntax at line " ++ toString cur)
      else if Py.startsWith "method " line then
        match matchSig "method" line.data with
        | some (nm, ps, rt, al) =>
          classLoop fuel lines (cur + 1)
            { cd with methods := cd.methods ++ [⟨nm, rt, parseParamList ps, al, true⟩] }
        | none => .err ("Invalid method syntax at line " ++ toString cur)
      else classLoop fuel lines (cur + 1) cd
    else .ok cd cur

/-- `_parse_class`: header match, member loop, then
`if not class_def.constructors: append(Constructor())`. -/
def parseClass (fuel : Nat) (lines : List String) (cur : Nat) : PResult ClassDef :=
  match matchClass (lineAt lines cur).data with
  | none => .err ("Invalid class syntax at line " ++ toString cur)
  | some (nm, base) =>
    match classLoop fuel lines (cur + 1) { name := nm, base_class := base } with
    | .ok cd cur2 =>
      .ok (if cd.constructors = [] then { cd with constructors := [⟨[]⟩] } else cd) cur2
    | .err e => .err e
    | .diverge => .diverge

/-- `_parse_function`. -/
def parseFunctionDef (lines : List String) (cur : Nat) : Except String (Function × Nat) :=
  match matchSig "function" (lineAt lines cur).data with
  | some (nm, ps, rt, al) => .ok (⟨nm, rt, parseParamList ps, al⟩, cur + 1)
  | none => .error ("Invalid function syntax at line " ++ toString cur)

/-- The dispatch `while` loop of `ILDParser.parse`. -/
def parseLoop : Nat → List String → Nat → ILDDocument → PResult ILDDocument
  | 0, _, _, _ => .diverge
  | fuel + 1, lines, cur, doc =>
    if cur < lines.length then
      let line := lineAt lines cur
      if Py.startsWith "module " line then
        match parseModule fuel lines cur with
        | .ok m cur2 => parseLoop fuel lines cur2 { doc with module := m }
        | .err e => .err e
        | .diverge => .diverge
      else if Py.startsWith "include " line then
        match parseInclude lines cur with
        | .ok (p, cur2) => parseLoop fuel lines cur2 { doc with includes := doc.includes ++ [p] }
        | .error e => .err e
      else if Py.startsWith "converters \x7b" line then
        match convLoop fuel lines (cur + 1) ∅ with
        | .ok cs cur2 => parseLoop fuel lines cur2 { doc with converters := cs }
        | .err e => .err e
        | .diverge => .diverge
      else if Py.startsWith "class " line then
        match parseClass fuel lines cur with
        | .ok cd cur2 => parseLoop fuel lines cur2 { doc with classes := doc.classes ++ [cd] }
        | .err e => .err e
        | .diverge => .diverge
      else if Py.startsWith "function " line then
        match parseFunctionDef lines cur with
        | .ok (fd, cur2) =>
          parseLoop fuel lines cur2 { doc with functions := doc.functions ++ [fd] }
        | .error e => .err e
      else if Py.startsWith "utilities \x7b" line then
        match utilLoop fuel lines (cur + 1) [] with
        | .ok us cur2 => parseLoop fuel lines cur2 { doc with utilities := us }
        | .err e => .err e
        | .diverge => .diverge
      else parseLoop fuel lines (cur + 1) doc
    else .ok doc cur

/-- The line preprocessing of `ILDParser.parse`: split on newlines,
cut each line at its first `#`, strip it, keep the non-empty ones. -/
def preprocess (content : String) : List String :=
  ((content.data.splitOn '\n').map
    (fun l => Py.strip ⟨l.takeWhile (fun c => c ≠ '#')⟩)).filter (fun s => s ≠ "")

/-- `ILDParser.parse(content)` under the fuel semantics. -/
def ildParse (fuel : Nat) (content : String) : PResult ILDDocument :=
  parseLoop fuel (preprocess content) 0 { module := { name := "unnamed" } }

end Ild

namespace Ild

/-! ### `src/ild/js_generator.py` : `JSBindingGenerator.generate_binding_cpp` -/

/-- `_generate_class_registration(cls)`. -/
def generateClassRegistration (cls : ClassDef) : String :=
  "\n    ROSETTA_REGISTER_CLASS(" ++ cls.name ++ ")\n" ++
  String.join (cls.fields.map (fun f =>
    "        .field(\"" ++ f.name ++ "\", &" ++ cls.name ++ "::" ++ f.name ++ ")\n")) ++
  String.join (cls.methods.map (fun m =>
    "        .method(\"" ++ m.name ++ "\", &" ++ cls.name ++ "::" ++ m.name ++ ")\n")) ++
  ";\n"

/-- Python slicing `s[a:-1]`. -/
def sliceInner (a : Nat) (s : String) : String := ⟨(s.data.drop a).dropLast⟩

/-- The body of the converter loop: vector/optional/map converters emit
a registration call (`converter[7:-1]`, `[9:-1]`, `[4:-1]` extract the
bracketed arguments); anything else emits nothing. -/
def converterLine (c : String) : String :=
  if Py.startsWith "vector<" c then
    "    register_vector_converter<" ++ sliceInner 7 c ++ ">(gen);\n"
  else if Py.startsWith "optional<" c then
    "    register_optional_converter<" ++ sliceInner 9 c ++ ">(gen);\n"
  else if Py.startsWith "map<" c then
    let parts := (sliceInner 4 c).data.splitOn ','
    if parts.length = 2 then
      "    register_map_converter<" ++ Py.strip ⟨parts.getD 0 []⟩ ++ ", " ++
        Py.strip ⟨parts.getD 1 []⟩ ++ ">(gen);\n"
    else ""
  else ""

/-- `for converter in sorted(self.doc.converters): ...` -/
def convertersChunk (convs : Finset String) : String :=
  String.join ((convs.sort (fun a b => a ≤ b)).map converterLine)

/-- `_generate_function_binding(func)`. -/
def functionBinding (f : Function) : String :=
  "    // TODO: Bind function " ++ f.name ++ "\n"

/-- The 76-character `=` banner of the generated file headers (kept out
of the literals below so it is written once). -/
def bannerBar : String := ⟨List.replicate 76 '='⟩

/-- `_generate_inspect_type()`. -/
def inspectTypeText : String :=
  "\n    // Add utility to inspect types\n    auto inspect_type = [](const Napi::CallbackInfo &info) -> Napi::Value \x7b\n        Napi::Env env = info.Env();\n\n        if (info.Length() < 1 || !info[0].IsString()) \x7b\n            Napi::TypeError::New(env, \"Expected type name as string\").ThrowAsJavaScriptException();\n            return env.Undefined();\n        \x7d\n\n        std::string     type_name = info[0].As<Napi::String>().Utf8Value();\n        const TypeInfo *type_info = TypeRegistry::instance().get_by_name(type_name);\n\n        if (!type_info) \x7b\n            return env.Null();\n        \x7d\n\n        Napi::Object result = Napi::Object::New(env);\n        result.Set(\"name\", Napi::String::New(env, type_info->name));\n        result.Set(\"fullName\", Napi::String::New(env, type_info->full_name()));\n        result.Set(\"size\", Napi::Number::New(env, type_info->size));\n        result.Set(\"alignment\", Napi::Number::New(env, type_info->alignment));\n        result.Set(\"isTemplate\", Napi::Boolean::New(env, type_info->is_template));\n        result.Set(\"isConst\", Napi::Boolean::New(env, type_info->is_const));\n        result.Set(\"isPointer\", Napi::Boolean::New(env, type_info->is_pointer));\n        result.Set(\"isNumeric\", Napi::Boolean::New(env, type_info->is_numeric()));\n\n        return result;\n    \x7d;\n\n    gen.exports.Set(\"inspectType\", Napi::Function::New(gen.env, inspect_type, \"inspectType\"));\n"


/-- `generate_binding_cpp()`. -/
def generateBindingCpp (doc : ILDDocument) : String :=
  (("// " ++ bannerBar ++ "\n// Auto-generated binding code from ") ++ doc.module.name ++ (".ild\n// DO NOT EDIT - Changes will be overwritten\n// " ++ bannerBar ++ "\n\n#include <iostream>\n#include <rosetta/generators/js/js_generator.h>\n#include <rosetta/generators/js/type_converters.h>\n#include <rosetta/rosetta.h>\n\nusing namespace rosetta;\nusing namespace rosetta::generators::js;\n\n// Include headers\n")) ++
  String.join (doc.includes.map (fun i => "#include \"" ++ i ++ "\"\n")) ++
  ("\n// " ++ bannerBar ++ "\n// ROSETTA REGISTRATION\n// " ++ bannerBar ++ "\n\nvoid register_classes() \x7b\n") ++
  String.join (doc.classes.map generateClassRegistration) ++
  ("\x7d\n\n// " ++ bannerBar ++ "\n// N-API BINDING\n// " ++ bannerBar ++ "\n\nBEGIN_JS_MODULE(gen) \x7b\n    // Register classes\n    register_classes();\n\n    // Register type converters\n") ++
  convertersChunk doc.converters ++
  ("\n    // Bind classes\n    gen.bind_classes<" ++
    ", ".intercalate (doc.classes.map ClassDef.name) ++ ">();\n\n") ++
  String.join (doc.functions.map functionBinding) ++
  (if "inspect_type" ∈ doc.utilities then inspectTypeText else "") ++
  "\n    gen.add_utilities();\n\x7d\nEND_JS_MODULE();\n"

end Ild

/-! ## Shared lemmas -/

/-- `len(set(l)) == len(l)` is exactly `Nodup`. -/
theorem dedup_length_eq_iff_nodup {α : Type} [DecidableEq α] (l : List α) :
    l.dedup.length = l.length ↔ l.Nodup := by
  constructor
  · intro h
    have he : l.dedup = l := (List.dedup_sublist l).eq_of_length h
    rw [← he]
    exact List.nodup_dedup l
  · intro h
    rw [List.dedup_eq_self.mpr h]

/-- A fold that appends an empty list at every step is the identity. -/
theorem foldl_append_nil {α β : Type} (f : α → List β) :
    ∀ (l : List α) (acc : List β), (∀ c ∈ l, f c = []) →
      l.foldl (fun a c => a ++ f c) acc = acc
  | [], _, _ => rfl
  | c :: l, acc, h => by
    simp only [List.foldl_cons]
    rw [h c (List.mem_cons_self c l), List.append_nil]
    exact foldl_append_nil f l acc (fun x hx => h x (List.mem_cons_of_mem c hx))

/-- Cancel a common prefix of a string append. -/
theorem string_append_left_cancel {a b c : String} (h : a ++ b = a ++ c) : b = c := by
  have hd : a.data ++ b.data = a.data ++ c.data := congrArg String.data h
  exact String.ext (List.append_cancel_left hd)

/-- `String.append` acts as list append on the underlying data. -/
theorem string_data_append (a b : String) : (a ++ b).data = a.data ++ b.data := rfl

/-- A string append starts with its first operand. -/
theorem py_startsWith_append (p s : String) : Py.startsWith p (p ++ s) = true := by
  show p.data.isPrefixOf (p.data ++ s.data) = true
  simp [List.isPrefixOf_iff_prefix]

/-! ## C1 : inheritance-cycle behaviour of `IDLParser.validate` -/

/-- Class `A` with base `B` and class `B` with base `A`: a resolvable
inheritance cycle. -/
def c1cycleIdl : Idl.InterfaceDefinition :=
  { module := { name := "m" }
    classes := [ { name := "A", base_classes := [{ name := "B" }] },
                 { name := "B", base_classes := [{ name := "A" }] } ] }

/-- The diamond: `D` with bases `B` and `C`, `B` and `C` both based on
`A`. -/
def c1diamondIdl : Idl.InterfaceDefinition :=
  { module := { name := "m" }
    classes := [ { name := "A" },
                 { name := "B", base_classes := [{ name := "A" }] },
                 { name := "C", base_classes := [{ name := "A" }] },
                 { name := "D", base_classes := [{ name := "B" }, { name := "C" }] } ] }

/-- C1 (counterexample): on the two-class cycle, `validate` records no
error at all (in particular no inheritance-cycle error) and returns
success, contradicting the claim that the cycle is rejected. -/
theorem c1_cycle_not_rejected : Idl.validate c1cycleIdl = ⟨[], [], true⟩ := by decide

/-- C1 (amended): `validate` performs no inheritance-cycle check.  For
every definition with unique class names, unique function names and
resolvable base references — cyclic ones included — it records zero
errors, zero warnings and returns success; the diamond is a special
case. -/
theorem c1_validate_ignores_cycles (idl : Idl.InterfaceDefinition)
    (hc : (idl.classes.map Idl.Class.name).Nodup)
    (hf : (idl.functions.map Idl.Function.name).Nodup)
    (hb : ∀ c ∈ idl.classes, ∀ b ∈ c.base_classes, (Idl.getClass idl b.name).isSome) :
    Idl.validate idl = ⟨[], [], true⟩ := by
  unfold Idl.validate Idl.validateFrom
  rw [if_neg (by rw [not_not, dedup_length_eq_iff_nodup]; exact hc),
      if_neg (by rw [not_not, dedup_length_eq_iff_nodup]; exact hf)]
  have hw : idl.classes.foldl (fun acc c =>
      acc ++ (c.base_classes.filter
        (fun b => (Idl.getClass idl b.name).isNone)).map (Idl.baseWarning c)) [] = [] := by
    apply foldl_append_nil
    intro c hcmem
    rw [List.map_eq_nil_iff, List.filter_eq_nil_iff]
    intro b hbmem
    rw [Option.isNone_iff_eq_none]
    intro hnone
    have := hb c hcmem b hbmem
    rw [hnone] at this
    exact Bool.noConfusion this
  rw [hw]
  rfl

/-- C1 (witness): the amended theorem applied to the cycle and to the
diamond. -/
theorem c1_witness :
    Idl.validate c1cycleIdl = ⟨[], [], true⟩ ∧
    Idl.validate c1diamondIdl = ⟨[], [], true⟩ :=
  ⟨c1_validate_ignores_cycles c1cycleIdl (by decide) (by decide) (by decide),
   c1_validate_ignores_cycles c1diamondIdl (by decide) (by decide) (by decide)⟩

/-! ## C6 : error accumulation in `IDLParser.validate` -/

/-- Two duplicate class names and two duplicate function names at
once. -/
def c6bothDupIdl : Idl.InterfaceDefinition :=
  { module := { name := "m" }
    classes := [ { name := "Shape" }, { name := "Shape" } ]
    functions := [ { name := "h" }, { name := "h" } ] }

/-- C6 (counterexample): with duplicate class names **and** duplicate
function names present, `validate` records only the duplicate-class
error and stops — the duplicate-function error is never recorded,
contradicting "records every applicable error in one pass". -/
theorem c6_stops_at_first_error :
    Idl.validate c6bothDupIdl = ⟨["Duplicate class names found"], [], false⟩ ∧
    "Duplicate function names found" ∉ (Idl.validate c6bothDupIdl).errors := by decide

/-- C6 (amended): `validate` short-circuits at the first failing
duplicate check (duplicate class names mask duplicate function names
entirely), and it returns success exactly when it recorded zero
errors. -/
theorem c6_validate_short_circuits (idl : Idl.InterfaceDefinition) :
    (¬ (idl.classes.map Idl.Class.name).Nodup →
      Idl.validate idl = ⟨["Duplicate class names found"], [], false⟩) ∧
    ((Idl.validate idl).ok = true ↔ (Idl.validate idl).errors = []) := by
  constructor
  · intro h
    unfold Idl.validate Idl.validateFrom
    rw [if_pos (by rw [Ne, dedup_length_eq_iff_nodup]; exact h)]
    rfl
  · unfold Idl.validate Idl.validateFrom
    dsimp only
    split
    · simp
    · split
      · simp
      · simp

/-- C6 (witness): the amended theorem applied to the concrete
double-duplicate definition. -/
theorem c6_witness :
    Idl.validate c6bothDupIdl = ⟨["Duplicate class names found"], [], false⟩ ∧
    ((Idl.validate c6bothDupIdl).ok = true ↔ (Idl.validate c6bothDupIdl).errors = []) :=
  ⟨(c6_validate_short_circuits c6bothDupIdl).1 (by decide),
   (c6_validate_short_circuits c6bothDupIdl).2⟩

/-! ## C2 : termination of `ILDParser.parse` -/

/-- A minimal well-formed DSL input: a module block containing a
`version:` line. -/
def c2input : String := "module m \x7b\nversion: \"1.0\"\n\x7d"

/-- Its preprocessed line list. -/
def c2lines : List String := Ild.preprocess c2input

/-- The module state after the first execution of the `version:`
branch; each further iteration reproduces it unchanged. -/
def c2state : Ild.ModuleConfig := { name := "m", version := "1.0" }

/-- The `version:` branch of `_parse_module`'s loop never advances the
cursor, so from the repeating state the loop exhausts every fuel. -/
theorem c2_moduleLoop_stuck :
    ∀ fuel, Ild.moduleLoop fuel c2lines 1 c2state = Ild.PResult.diverge
  | 0 => rfl
  | fuel + 1 => by
    have h : Ild.moduleLoop (fuel + 1) c2lines 1 c2state =
        Ild.moduleLoop fuel c2lines 1 c2state := rfl
    rw [h]
    exact c2_moduleLoop_stuck fuel

/-- One step from the freshly matched module header reaches the
repeating state. -/
theorem c2_moduleLoop_diverge :
    ∀ fuel, Ild.moduleLoop fuel c2lines 1 { name := "m" } = Ild.PResult.diverge
  | 0 => rfl
  | fuel + 1 => by
    have h : Ild.moduleLoop (fuel + 1) c2lines 1 { name := "m" } =
        Ild.moduleLoop fuel c2lines 1 c2state := rfl
    rw [h]
    exact c2_moduleLoop_stuck fuel

/-- C2 (refuting theorem): parsing `c2input` exhausts **every** fuel:
the cursor of `_parse_module` is never advanced on the `version:`
line, so `ILDParser.parse` does not terminate on this well-formed
input.  The claim that every input is consumed in finitely many steps
fails; the spec's single-forward-scan description is the evident
intent, and the missing cursor advance is a code bug. -/
theorem c2_parse_diverges_on_version_line (fuel : Nat) :
    Ild.ildParse fuel c2input = Ild.PResult.diverge := by
  match fuel with
  | 0 => rfl
  | fuel + 1 =>
    have hstep : Ild.ildParse (fuel + 1) c2input =
        (match Ild.moduleLoop fuel c2lines 1 { name := "m" } with
         | .ok m cur2 => Ild.parseLoop fuel c2lines cur2
             { module := m, includes := [], converters := ∅, classes := [],
               functions := [], utilities := [] }
         | .err e => Ild.PResult.err e
         | .diverge => Ild.PResult.diverge) := rfl
    rw [hstep, c2_moduleLoop_diverge fuel]

/-! ## C3 : emission names of overloaded methods -/

/-- `Rectangle.area()` returning `double`. -/
def rectAreaVoid : Idl.Method := { name := "area", returns := "double" }

/-- `Rectangle.area(double scale)` returning `double`. -/
def rectAreaScale : Idl.Method :=
  { name := "area", returns := "double"
    parameters := [{ name := "scale", type := "double" }] }

/-- The method list of class `Rectangle`. -/
def rectMethods : List Idl.Method := [rectAreaVoid, rectAreaScale]

/-- C3: a method whose declared name is carried by exactly one method
of the class is emitted under its declared name; with more than one
carrier the emission name is the declared name, `_`, and either `void`
(no parameters) or the reduced parameter types joined with `_`; and the
`Rectangle` example yields `area_void` and `area_double`. -/
theorem c3_emission_names (ms : List Idl.Method) (m : Idl.Method) (_hm : m ∈ ms) :
    ((ms.filter (fun x => x.name = m.name)).length = 1 →
      Idl.pyMethodName ms m = m.name) ∧
    (1 < (ms.filter (fun x => x.name = m.name)).length →
      Idl.pyMethodName ms m = m.name ++ ("_" ++
        (if m.parameters = [] then "void"
         else "_".intercalate (m.parameters.map (fun p => Idl.simplifyParamType p.type))))) ∧
    (Idl.pyMethodName rectMethods rectAreaVoid = "area_void" ∧
     Idl.pyMethodName rectMethods rectAreaScale = "area_double") := by
  refine ⟨?_, ?_, by decide, by decide⟩
  · intro h1
    unfold Idl.pyMethodName Idl.overloadCount
    rw [if_neg]
    rw [h1]
    exact lt_irrefl 1
  · intro h2
    unfold Idl.pyMethodName Idl.overloadCount
    rw [if_pos h2]
    congr 1
    unfold Idl.overloadSfx
    rcases hp : m.parameters with _ | ⟨p, ps⟩
    · rfl
    · rfl

/-- C3 (witness): the theorem at the two `Rectangle` methods. -/
theorem c3_witness :
    Idl.pyMethodName rectMethods rectAreaVoid = "area_void" ∧
    Idl.pyMethodName rectMethods rectAreaScale = "area_double" :=
  ⟨(c3_emission_names rectMethods rectAreaVoid (by decide)).2.2.1,
   (c3_emission_names rectMethods rectAreaScale (by decide)).2.2.2⟩

/-! ## C4 : distinctness of emission names -/

/-- `foo(int x)`. -/
def c4int : Idl.Method := { name := "foo", parameters := [{ name := "x", type := "int" }] }

/-- `foo(const int& x)`: a distinct declared parameter-type string. -/
def c4constIntRef : Idl.Method :=
  { name := "foo", parameters := [{ name := "x", type := "const int&" }] }

/-- C4 (counterexample): the two overloads have pairwise distinct
declared parameter-type sequences, yet both reduce to the suffix `int`
and receive the **same** emission name `foo_int`. -/
theorem c4_names_can_collide :
    c4int.parameters.map Idl.Parameter.type ≠ c4constIntRef.parameters.map Idl.Parameter.type ∧
    Idl.pyMethodName [c4int, c4constIntRef] c4int = "foo_int" ∧
    Idl.pyMethodName [c4int, c4constIntRef] c4constIntRef = "foo_int" := by decide

/-- C4 (amended): within one overload group the emission names are
pairwise distinct whenever the parameter-derived suffixes are pairwise
distinct (declared type strings that reduce to the same suffix — as in
the counterexample — may collide). -/
theorem c4_distinct_suffixes_distinct_names (ms : List Idl.Method) (m1 m2 : Idl.Method)
    (_h1 : m1 ∈ ms) (_h2 : m2 ∈ ms) (hname : m1.name = m2.name)
    (hover : 1 < Idl.overloadCount ms m1.name)
    (hsfx : Idl.overloadSfx m1 ≠ Idl.overloadSfx m2) :
    Idl.pyMethodName ms m1 ≠ Idl.pyMethodName ms m2 := by
  unfold Idl.pyMethodName
  rw [if_pos hover, if_pos (hname ▸ hover)]
  intro he
  apply hsfx
  rw [hname] at he
  exact string_append_left_cancel he

/-- `bar(int x)`. -/
def c4wInt : Idl.Method := { name := "bar", parameters := [{ name := "x", type := "int" }] }

/-- `bar(double x)`. -/
def c4wDouble : Idl.Method := { name := "bar", parameters := [{ name := "x", type := "double" }] }

/-- C4 (witness): two overloads with distinct suffixes get distinct
emission names. -/
theorem c4_witness :
    Idl.pyMethodName [c4wInt, c4wDouble] c4wInt ≠
      Idl.pyMethodName [c4wInt, c4wDouble] c4wDouble :=
  c4_distinct_suffixes_distinct_names [c4wInt, c4wDouble] c4wInt c4wDouble
    (by decide) (by decide) (by decide) (by decide) (by decide)

/-! ## C5 : no pointer casts for virtual / override / pure-virtual? -/

/-- An overload pair of virtual methods: `virtual void foo()` and
`virtual void foo(int x)`. -/
def c5virtVoid : Idl.Method := { name := "foo", virtual := true }

def c5virtInt : Idl.Method :=
  { name := "foo", parameters := [{ name := "x", type := "int" }], virtual := true }

/-- C5 (counterexample): for an overloaded **virtual** method the
emitted registration carries a `static_cast` disambiguating pointer
expression, not the plain address-of-member form — the claimed
exemption of virtual/override members from signature casting does not
exist in the code. -/
theorem c5_virtual_overload_is_cast :
    Idl.genMethodPtr "C" c5virtVoid true false = "static_cast<void (C::*)()>(&C::foo)" ∧
    Idl.genMethodPtr "C" c5virtVoid true false ≠ "&C::foo" ∧
    Idl.methodRegLine "C" [c5virtVoid, c5virtInt] c5virtVoid =
      "        .virtual_method(\"foo_void\", static_cast<void (C::*)()>(&C::foo))\n" := by
  decide

/-- C5 (amended): a pure-virtual method is emitted with no pointer
expression at all; a virtual or override method gets the plain
address-of-member pointer exactly when its name is not overloaded, and
the same `static_cast` disambiguation as a plain method when it is. -/
theorem c5_virtual_cast_behaviour (cn : String) (ms : List Idl.Method) (m : Idl.Method) :
    (m.pure_virtual = true →
      Idl.methodRegLine cn ms m =
        "        .pure_virtual_method<" ++
          ", ".intercalate (m.returns :: m.parameters.map Idl.Parameter.type) ++
          ">(\"" ++ Idl.pyMethodName ms m ++ "\")\n") ∧
    (m.pure_virtual = false → m.static = false → m.override = true →
      ¬ 1 < Idl.overloadCount ms m.name →
      Idl.methodRegLine cn ms m =
        "        .override_method(\"" ++ Idl.pyMethodName ms m ++ "\", &" ++ cn ++ "::" ++
          Py.pyOr m.cpp_name m.name ++ ")\n") ∧
    (m.pure_virtual = false → m.static = false → m.override = false → m.virtual = true →
      ¬ 1 < Idl.overloadCount ms m.name →
      Idl.methodRegLine cn ms m =
        "        .virtual_method(\"" ++ Idl.pyMethodName ms m ++ "\", &" ++ cn ++ "::" ++
          Py.pyOr m.cpp_name m.name ++ ")\n") ∧
    (1 < Idl.overloadCount ms m.name →
      Py.startsWith "static_cast<" (Idl.genMethodPtr cn m true false) = true) := by
  refine ⟨?_, ?_, ?_, ?_⟩
  · intro hpv
    unfold Idl.methodRegLine
    rw [if_pos hpv]
  · intro hpv hst hov hnover
    unfold Idl.methodRegLine
    rw [if_neg (by simp [hpv]), if_neg (by simp [hst]), if_pos hov]
    unfold Idl.genMethodPtr
    rw [if_pos (by simp [decide_eq_false hnover])]
    apply String.ext
    simp only [string_data_append, List.append_assoc]
    rfl
  · intro hpv hst hov hv hnover
    unfold Idl.methodRegLine
    rw [if_neg (by simp [hpv]), if_neg (by simp [hst]), if_neg (by simp [hov]), if_pos hv]
    unfold Idl.genMethodPtr
    rw [if_pos (by simp [decide_eq_false hnover])]
    apply String.ext
    simp only [string_data_append, List.append_assoc]
    rfl
  · intro _hover
    unfold Idl.genMethodPtr
    rw [if_neg (by simp)]
    rw [String.append_assoc, String.append_assoc, String.append_assoc,
        String.append_assoc, String.append_assoc]
    exact py_startsWith_append "static_cast<" _

/-- `virtual void baz() const`, not overloaded. -/
def c5wNonOver : Idl.Method := { name := "baz", virtual := true }

/-- C5 (witness): the amended theorem at concrete methods — the
non-overloaded virtual method keeps the plain pointer, the overloaded
one is cast. -/
theorem c5_witness :
    Idl.methodRegLine "C" [c5wNonOver] c5wNonOver =
      "        .virtual_method(\"baz\", &C::baz)\n" ∧
    Py.startsWith "static_cast<" (Idl.genMethodPtr "C" c5virtVoid true false) = true := by
  constructor
  · have h := (c5_virtual_cast_behaviour "C" [c5wNonOver] c5wNonOver).2.2.1
      rfl rfl rfl rfl (by decide)
    rw [h]
    rfl
  · exact (c5_virtual_cast_behaviour "C" [c5virtVoid, c5virtInt] c5virtVoid).2.2.2 (by decide)

/-! ## C7 : the implicit default constructor -/

/-- The class-member loop of `_parse_class` can only move the cursor
forward. -/
theorem classLoop_cursor_mono (fuel : Nat) :
    ∀ (lines : List String) (cur : Nat) (cd cd2 : Ild.ClassDef) (cur2 : Nat),
      Ild.classLoop fuel lines cur cd = .ok cd2 cur2 → cur ≤ cur2 := by
  induction fuel with
  | zero =>
    intro lines cur cd cd2 cur2 h
    simp [Ild.classLoop] at h
  | succ fuel ih =>
    intro lines cur cd cd2 cur2 h
    unfold Ild.classLoop at h
    dsimp only at h
    split at h
    · split at h
      · cases h; omega
      · split at h
        · have := ih _ _ _ _ _ h; omega
        · split at h
          · split at h
            · have := ih _ _ _ _ _ h; omega
            · simp at h
          · split at h
            · split at h
              · have := ih _ _ _ _ _ h; omega
              · simp at h
            · have := ih _ _ _ _ _ h; omega
    · cases h; omega

/-- The class-member loop appends a constructor only when it consumes a
line starting with `constructor`; with no such line in the consumed
range the constructor list is returned unchanged. -/
theorem classLoop_no_ctor_line (fuel : Nat) :
    ∀ (lines : List String) (cur : Nat) (cd cd2 : Ild.ClassDef) (cur2 : Nat),
      Ild.classLoop fuel lines cur cd = .ok cd2 cur2 →
      (∀ i, cur ≤ i → i < cur2 → Py.startsWith "constructor" (Ild.lineAt lines i) = false) →
      cd2.constructors = cd.constructors := by
  induction fuel with
  | zero =>
    intro lines cur cd cd2 cur2 h _
    simp [Ild.classLoop] at h
  | succ fuel ih =>
    intro lines cur cd cd2 cur2 h hno
    unfold Ild.classLoop at h
    dsimp only at h
    split at h
    case isTrue hlen =>
      split at h
      case isTrue hbrace => cases h; rfl
      case isFalse hbrace =>
        split at h
        case isTrue hctor =>
          have hlt : cur < cur2 := by
            have := classLoop_cursor_mono fuel _ _ _ _ _ h; omega
          have hfalse := hno cur (le_refl cur) hlt
          rw [hfalse] at hctor
          exact absurd hctor (by simp)
        case isFalse hctor =>
          split at h
          case isTrue hfield =>
            split at h
            case h_1 nm ty al heq =>
              have hmono := classLoop_cursor_mono fuel _ _ _ _ _ h
              have := ih _ _ _ _ _ h (fun i hi1 hi2 => hno i (by omega) hi2)
              exact this
            case h_2 => simp at h
          case isFalse hfield =>
            split at h
            case isTrue hmeth =>
              split at h
              case h_1 r heq =>
                have := ih _ _ _ _ _ h (fun i hi1 hi2 => hno i (by omega) hi2)
                exact this
              case h_2 => simp at h
            case isFalse hmeth =>
              exact ih _ _ _ _ _ h (fun i hi1 hi2 => hno i (by omega) hi2)
    case isFalse hlen =>
      cases h; rfl

/-- The DSL half of C7, as a lemma: a `class` block whose consumed
lines contain no `constructor` line yields exactly one zero-parameter
constructor (the post-loop default). -/
theorem parseClass_default_ctor (fuel : Nat) (lines : List String) (cur : Nat)
    (cd2 : Ild.ClassDef) (cur2 : Nat)
    (h : Ild.parseClass fuel lines cur = .ok cd2 cur2)
    (hno : ∀ i, cur + 1 ≤ i → i < cur2 →
      Py.startsWith "constructor" (Ild.lineAt lines i) = false) :
    cd2.constructors = [Ild.Constructor.mk []] := by
  unfold Ild.parseClass at h
  split at h
  case h_1 => simp at h
  case h_2 nm base heq =>
    split at h
    case h_1 cd cur3 hloop =>
      rw [Ild.PResult.ok.injEq] at h
      obtain ⟨hcd, hcur⟩ := h
      have hctors : cd.constructors = [] := by
        have := classLoop_no_ctor_line fuel lines (cur + 1)
          { name := nm, base_class := base } cd cur3 hloop
          (fun i hi1 hi2 => hno i hi1 (by omega))
        simpa using this
      rw [← hcd, if_pos hctors]
    case h_2 => simp at h
    case h_3 => simp at h

/-- The YAML dict `{ name: "A" }`: a class entry declaring no
constructors. -/
def c7dict : Idl.ClassData := { name := "A" }

/-- C7 (counterexample): on the structured-document path,
`Class.from_dict` of a class with zero declared constructors yields a
Class with **zero** constructors — not the claimed single default
constructor. -/
theorem c7_fromDict_no_default :
    Idl.Class.fromDict c7dict = .ok { name := "A" } ∧
    ({ name := "A" } : Idl.Class).constructors = [] := ⟨rfl, rfl⟩

/-- C7 (amended): the custom-DSL parser (`ILDParser._parse_class`)
gives a class with zero declared constructors exactly one
zero-parameter Constructor; the structured-document path
(`Class.from_dict`) gives it zero Constructors. -/
theorem c7_default_constructor (fuel : Nat) (lines : List String) (cur : Nat)
    (cd2 : Ild.ClassDef) (cur2 : Nat) (d : Idl.ClassData) (cls : Idl.Class) :
    (Ild.parseClass fuel lines cur = .ok cd2 cur2 →
      (∀ i, cur + 1 ≤ i → i < cur2 →
        Py.startsWith "constructor" (Ild.lineAt lines i) = false) →
      cd2.constructors = [Ild.Constructor.mk []]) ∧
    ((d.constructors = none ∨ d.constructors = some []) →
      Idl.Class.fromDict d = .ok cls → cls.constructors = []) := by
  constructor
  · exact parseClass_default_ctor fuel lines cur cd2 cur2
  · intro hc h
    unfold Idl.Class.fromDict at h
    split at h
    case h_1 => simp at h
    case h_2 fs hfs =>
      split at h
      case h_1 => simp at h
      case h_2 bs hbs =>
        rw [Except.ok.injEq] at h
        rw [← h]
        rcases hc with h1 | h1 <;> simp [h1]

/-- The DSL source of the witness class (no constructor declared). -/
def c7wLines : List String := Ild.preprocess "class A \x7b\nfield x : double\n\x7d"

/-- What `_parse_class` produces for it. -/
def c7wParsed : Ild.ClassDef :=
  { name := "A", constructors := [⟨[]⟩], fields := [⟨"x", "double", none⟩] }

/-- The YAML-path witness dict and its parsed Class. -/
def c7wDict : Idl.ClassData := { name := "B" }

def c7wCls : Idl.Class := { name := "B" }

/-- C7 (witness): the amended theorem applied to both concrete
inputs. -/
theorem c7_witness :
    c7wParsed.constructors = [Ild.Constructor.mk []] ∧ c7wCls.constructors = [] := by
  constructor
  · exact (c7_default_constructor 5 c7wLines 0 c7wParsed 3 c7wDict c7wCls).1
      (by decide)
      (by intro i h1 h2; interval_cases i <;> decide)
  · exact (c7_default_constructor 5 c7wLines 0 c7wParsed 3 c7wDict c7wCls).2
      (Or.inl rfl) rfl

/-! ## C8 : silent deduplication of identical signatures -/

/-- The emission loop writes exactly one registration line per method
surviving the `registered_methods` guard. -/
theorem methodsLoop_eq_map (cn : String) (ms : List Idl.Method) :
    ∀ (rest : List Idl.Method) (seen : List String),
      Idl.methodsLoop cn ms rest seen =
        (Idl.dedupMethodsAux rest seen).map (Idl.methodRegLine cn ms)
  | [], _ => rfl
  | m :: rest, seen => by
    unfold Idl.methodsLoop Idl.dedupMethodsAux
    by_cases hk : Idl.methodKey m ∈ seen
    · rw [if_pos hk, if_pos hk]
      exact methodsLoop_eq_map cn ms rest seen
    · rw [if_neg hk, if_neg hk, List.map_cons]
      rw [methodsLoop_eq_map cn ms rest (Idl.methodKey m :: seen)]

/-- One unfolding step of the guard. -/
theorem dedupMethodsAux_cons (m : Idl.Method) (rest : List Idl.Method) (seen : List String) :
    Idl.dedupMethodsAux (m :: rest) seen =
      if Idl.methodKey m ∈ seen then Idl.dedupMethodsAux rest seen
      else m :: Idl.dedupMethodsAux rest (Idl.methodKey m :: seen) := rfl

/-- A method whose key is already covered (by the seen-set or by an
earlier list entry) contributes nothing to the deduplicated list. -/
theorem dedupMethodsAux_skip :
    ∀ (pre : List Idl.Method) (m : Idl.Method) (post : List Idl.Method) (seen : List String),
      (Idl.methodKey m ∈ seen ∨ Idl.methodKey m ∈ pre.map Idl.methodKey) →
      Idl.dedupMethodsAux (pre ++ m :: post) seen = Idl.dedupMethodsAux (pre ++ post) seen
  | [], m, post, seen, h => by
    rcases h with h | h
    · simp only [List.nil_append]
      rw [dedupMethodsAux_cons, if_pos h]
    · simp at h
  | p :: pre, m, post, seen, h => by
    simp only [List.cons_append]
    have hsplit : Idl.methodKey m ∈ seen ∨
        (Idl.methodKey m = Idl.methodKey p ∨ Idl.methodKey m ∈ pre.map Idl.methodKey) := by
      rcases h with h | h
      · exact Or.inl h
      · have h2 : Idl.methodKey m ∈ Idl.methodKey p :: pre.map Idl.methodKey := by
          rw [← List.map_cons]; exact h
        exact Or.inr (List.mem_cons.mp h2)
    rw [dedupMethodsAux_cons, dedupMethodsAux_cons]
    by_cases hp : Idl.methodKey p ∈ seen
    · rw [if_pos hp, if_pos hp]
      refine dedupMethodsAux_skip pre m post seen ?_
      rcases hsplit with h3 | h3 | h3
      · exact Or.inl h3
      · exact Or.inl (h3 ▸ hp)
      · exact Or.inr h3
    · rw [if_neg hp, if_neg hp]
      refine congrArg _ (dedupMethodsAux_skip pre m post (Idl.methodKey p :: seen) ?_)
      rcases hsplit with h3 | h3 | h3
      · exact Or.inl (List.mem_cons_of_mem _ h3)
      · exact Or.inl (h3 ▸ List.mem_cons_self _ _)
      · exact Or.inr h3

/-- With pairwise distinct keys (none already seen), the guard skips
nothing. -/
theorem dedupMethodsAux_nodup :
    ∀ (ms : List Idl.Method) (seen : List String),
      (ms.map Idl.methodKey).Nodup →
      (∀ k ∈ ms.map Idl.methodKey, k ∉ seen) →
      Idl.dedupMethodsAux ms seen = ms
  | [], _, _, _ => rfl
  | m :: ms, seen, hnd, hs => by
    have hnd2 : (Idl.methodKey m :: ms.map Idl.methodKey).Nodup := by
      rw [← List.map_cons]; exact hnd
    obtain ⟨hhead, htail⟩ := List.nodup_cons.mp hnd2
    rw [dedupMethodsAux_cons, if_neg (hs (Idl.methodKey m) (by simp))]
    refine congrArg _ (dedupMethodsAux_nodup ms (Idl.methodKey m :: seen) htail ?_)
    intro k hk
    rw [List.mem_cons]
    rintro (h | h)
    · exact hhead (h ▸ hk)
    · exact hs k (by rw [List.map_cons]; exact List.mem_cons_of_mem _ hk) h

/-- `foo(map<int, int>)` written as two comma-containing fragments. -/
def c8fragA : Idl.Method :=
  { name := "foo", parameters := [{ name := "a", type := "map<int" },
                                  { name := "b", type := "int>" }] }

/-- `foo(map<int,int>)` as a single parameter. -/
def c8fragB : Idl.Method :=
  { name := "foo", parameters := [{ name := "c", type := "map<int,int>" }] }

/-- C8 (counterexample): the two methods have **distinct** identity
tuples (name, ordered parameter-type strings, const-ness), but their
comma-joined keys coincide, so the second is silently skipped — it gets
no registration line, contradicting "Methods with distinct identity
tuples are all emitted". -/
theorem c8_distinct_tuples_skipped :
    (c8fragA.name, c8fragA.parameters.map Idl.Parameter.type, c8fragA.const) ≠
      (c8fragB.name, c8fragB.parameters.map Idl.Parameter.type, c8fragB.const) ∧
    Idl.dedupMethods [c8fragA, c8fragB] = [c8fragA] ∧
    Idl.methodsSection "C" [c8fragA, c8fragB] =
      [Idl.methodRegLine "C" [c8fragA, c8fragB] c8fragA] := by decide

/-- C8 (amended): emission writes one registration line per surviving
method; methods with equal identity tuples have equal keys, and a
method whose key already occurred earlier is silently dropped (the
output is as if the duplicate were absent) with no diagnostic channel
in `_write_class_registration` at all; methods with pairwise distinct
**keys** (name, comma-joined parameter types, const flag) are all
emitted.  Distinct identity tuples whose parameter types join to the
same string — the counterexample — are collapsed. -/
theorem c8_first_occurrence_wins (cn : String) (ms pre post : List Idl.Method)
    (m m1 m2 : Idl.Method) :
    (Idl.methodsSection cn ms = (Idl.dedupMethods ms).map (Idl.methodRegLine cn ms)) ∧
    (m1.name = m2.name →
      m1.parameters.map Idl.Parameter.type = m2.parameters.map Idl.Parameter.type →
      m1.const = m2.const → Idl.methodKey m1 = Idl.methodKey m2) ∧
    (Idl.methodKey m ∈ pre.map Idl.methodKey →
      Idl.dedupMethods (pre ++ m :: post) = Idl.dedupMethods (pre ++ post)) ∧
    ((ms.map Idl.methodKey).Nodup → Idl.dedupMethods ms = ms) := by
  refine ⟨methodsLoop_eq_map cn ms ms [], ?_, ?_, ?_⟩
  · intro hn hp hc
    unfold Idl.methodKey
    rw [hn, hp, hc]
  · intro hmem
    exact dedupMethodsAux_skip pre m post [] (Or.inr hmem)
  · intro hnd
    exact dedupMethodsAux_nodup ms [] hnd (by simp)

/-- `set(int x)` and `set(double x)`: distinct keys. -/
def c8wInt : Idl.Method := { name := "set", parameters := [{ name := "x", type := "int" }] }

def c8wDouble : Idl.Method := { name := "set", parameters := [{ name := "x", type := "double" }] }

/-- C8 (witness): the amended theorem at concrete methods — a repeated
identical declaration is dropped, distinct-key methods all survive. -/
theorem c8_witness :
    Idl.methodsSection "C" [c8wInt, c8wDouble] =
      (Idl.dedupMethods [c8wInt, c8wDouble]).map (Idl.methodRegLine "C" [c8wInt, c8wDouble]) ∧
    Idl.dedupMethods [c8wInt, c8wInt, c8wDouble] = Idl.dedupMethods [c8wInt, c8wDouble] ∧
    Idl.dedupMethods [c8wInt, c8wDouble] = [c8wInt, c8wDouble] := by
  refine ⟨(c8_first_occurrence_wins "C" [c8wInt, c8wDouble] [c8wInt] [c8wDouble]
      c8wInt c8wInt c8wInt).1, ?_, ?_⟩
  · exact (c8_first_occurrence_wins "C" [c8wInt, c8wDouble] [c8wInt] [c8wDouble]
      c8wInt c8wInt c8wInt).2.2.1 (by decide)
  · exact (c8_first_occurrence_wins "C" [c8wInt, c8wDouble] [c8wInt] [c8wDouble]
      c8wInt c8wInt c8wInt).2.2.2 (by decide)

/-! ## C9 : deterministic emission -/

/-- C9: `generate_binding_cpp` is a pure function of the document
contents — equal module, includes, converter set, classes, functions
and utilities give byte-identical output, and a second run on the same
document reproduces the first. -/
theorem c9_deterministic_emission (d1 d2 : Ild.ILDDocument)
    (hm : d1.module = d2.module) (hi : d1.includes = d2.includes)
    (hc : d1.converters = d2.converters) (hcl : d1.classes = d2.classes)
    (hf : d1.functions = d2.functions) (hu : d1.utilities = d2.utilities) :
    Ild.generateBindingCpp d1 = Ild.generateBindingCpp d2 ∧
    Ild.generateBindingCpp d1 = Ild.generateBindingCpp d1 := by
  have hdoc : d1 = d2 := by
    cases d1; cases d2
    simp_all
  rw [hdoc]
  exact ⟨rfl, rfl⟩

/-- A concrete document for the witness. -/
def c9wDoc : Ild.ILDDocument :=
  { module := { name := "geo", version := "2.0", description := "demo" }
    includes := ["geo.h"]
    converters := insert "vector<double>" ∅
    classes := [{ name := "P", constructors := [⟨[]⟩],
                  fields := [⟨"x", "double", none⟩],
                  methods := [⟨"norm", "double", [], none, true⟩] }]
    functions := [⟨"mk", "P", [], none⟩]
    utilities := ["inspect_type"] }

/-- C9 (witness): the theorem applied to the same document twice. -/
theorem c9_witness :
    Ild.generateBindingCpp c9wDoc = Ild.generateBindingCpp c9wDoc :=
  (c9_deterministic_emission c9wDoc c9wDoc rfl rfl rfl rfl rfl rfl).1

/-! ## C10 : converter collection as a set, sorted emission -/

/-- The lines of a converters block: everything before the first
`}`. -/
def convBlock (ls : List String) : List String := ls.takeWhile (fun l => l ≠ "\x7d")

/-- The converter set collected from those lines. -/
def convSetOf (ls : List String) : Finset String :=
  (convBlock ls).foldl (fun a l => insert l a) ∅

/-- Folding `insert` accumulates the list's `toFinset`. -/
theorem foldl_insert_toFinset (ls : List String) :
    ∀ s : Finset String, ls.foldl (fun a l => insert l a) s = s ∪ ls.toFinset := by
  induction ls with
  | nil => intro s; simp
  | cons l ls ih =>
    intro s
    simp only [List.foldl_cons, List.toFinset_cons, ih (insert l s)]
    rw [Finset.insert_union, Finset.union_insert]

/-- Duplicating a line of the block leaves the collected set
unchanged. -/
theorem convSetOf_dup (pre post : List String) (a : String) :
    convSetOf (pre ++ a :: a :: post) = convSetOf (pre ++ a :: post) := by
  unfold convSetOf convBlock
  rw [foldl_insert_toFinset, foldl_insert_toFinset]
  induction pre with
  | nil =>
    by_cases ha : a = "\x7d"
    · simp [ha]
    · simp [List.takeWhile_cons, ha]
  | cons p pre ih =>
    by_cases hp : p = "\x7d"
    · simp [List.takeWhile_cons, hp]
    · simp only [List.cons_append, List.takeWhile_cons, hp]
      simp only [decide_not, if_pos, List.toFinset_cons]
      simp_all

/-- `_parse_converters` with enough fuel returns exactly the collected
set of its block. -/
theorem convLoop_collects (fuel : Nat) :
    ∀ (lines : List String) (cur : Nat) (s : Finset String),
      lines.length - cur < fuel →
      ∃ cur2, Ild.convLoop fuel lines cur s =
        .ok (((lines.drop cur).takeWhile (fun l => l ≠ "\x7d")).foldl (fun a l => insert l a) s)
          cur2 := by
  induction fuel with
  | zero => intro lines cur s h; omega
  | succ fuel ih =>
    intro lines cur s h
    unfold Ild.convLoop
    by_cases hlen : cur < lines.length
    · rw [if_pos hlen]
      have hdrop : lines.drop cur = Ild.lineAt lines cur :: lines.drop (cur + 1) := by
        unfold Ild.lineAt
        rw [List.getD_eq_getElem lines "" hlen]
        exact (List.drop_eq_getElem_cons hlen).symm ▸ rfl
      by_cases hbr : Ild.lineAt lines cur = "\x7d"
      · rw [if_pos hbr]
        refine ⟨cur + 1, ?_⟩
        rw [hdrop, hbr]
        simp [List.takeWhile_cons]
      · rw [if_neg hbr]
        obtain ⟨cur2, h2⟩ := ih lines (cur + 1) (insert (Ild.lineAt lines cur) s) (by omega)
        refine ⟨cur2, ?_⟩
        rw [h2, hdrop]
        simp [List.takeWhile_cons, hbr]
    · rw [if_neg hlen]
      refine ⟨cur, ?_⟩
      rw [List.drop_eq_nil_of_le (by omega)]
      rfl

/-- C10: a converter line declared twice inside a `converters` block
yields the same collected set — and hence byte-identical emitted
converter-registration calls — as declaring it once; the set collected
by `_parse_converters` is order-insensitive (any permutation of the
block gives the same set); and emission walks the set in sorted order
of the converter strings. -/
theorem c10_converters_set_sorted (pre post ls1 ls2 : List String) (a : String)
    (fuel : Nat) (s : Finset String) :
    (convSetOf (pre ++ a :: a :: post) = convSetOf (pre ++ a :: post) ∧
     Ild.convertersChunk (convSetOf (pre ++ a :: a :: post)) =
       Ild.convertersChunk (convSetOf (pre ++ a :: post))) ∧
    ((convBlock ls1).Perm (convBlock ls2) → convSetOf ls1 = convSetOf ls2) ∧
    (ls1.length < fuel →
      ∃ cur2, Ild.convLoop fuel ls1 0 s = .ok (s ∪ convSetOf ls1) cur2) ∧
    (Ild.convertersChunk s =
       String.join ((s.sort (fun x y => x ≤ y)).map Ild.converterLine) ∧
     (s.sort (fun x y => x ≤ y)).Sorted (fun x y => x ≤ y)) := by
  refine ⟨⟨convSetOf_dup pre post a, congrArg _ (convSetOf_dup pre post a)⟩, ?_, ?_, rfl, ?_⟩
  · intro hperm
    unfold convSetOf
    rw [foldl_insert_toFinset, foldl_insert_toFinset,
        List.toFinset_eq_of_perm _ _ hperm]
  · intro hfuel
    obtain ⟨cur2, h2⟩ := convLoop_collects fuel ls1 0 s (by omega)
    refine ⟨cur2, ?_⟩
    rw [h2]
    unfold convSetOf convBlock
    rw [List.drop_zero] at *
    rw [foldl_insert_toFinset, foldl_insert_toFinset]
    simp
  · exact Finset.sort_sorted _ s

/-- C10 (witness): the theorem at a concrete duplicated block, a
concrete permutation, a concrete parser run and a concrete set. -/
theorem c10_witness :
    convSetOf ["optional<int>", "vector<double>", "vector<double>", "\x7d"] =
      convSetOf ["optional<int>", "vector<double>", "\x7d"] ∧
    convSetOf ["vector<double>", "optional<int>", "\x7d"] =
      convSetOf ["optional<int>", "vector<double>", "\x7d"] ∧
    (∃ cur2, Ild.convLoop 9 ["vector<double>", "\x7d"] 0 ∅ =
      .ok (∅ ∪ convSetOf ["vector<double>", "\x7d"]) cur2) := by
  refine ⟨?_, ?_, ?_⟩
  · exact (c10_converters_set_sorted ["optional<int>"] ["\x7d"]
      [] [] "vector<double>" 9 ∅).1.1
  · exact (c10_converters_set_sorted [] [] ["vector<double>", "optional<int>", "\x7d"]
      ["optional<int>", "vector<double>", "\x7d"] "x" 9 ∅).2.1 (by decide)
  · exact (c10_converters_set_sorted [] [] ["vector<double>", "\x7d"]
      [] "x" 10 ∅).2.2.1 (by decide)
